import Mathlib

/-!
# Verification of the geode-piano firmware core

Shallow embedding of the pin fabric (`src/pins.rs`), key-matrix scanner
(`src/matrix.rs`) and MIDI serialization (`src/midi/mod.rs`,
`src/geode_midi.rs`) of the geode-piano firmware, together with proofs and
refutations of the specified properties.

Machine integers are modelled as `Nat`; wrap-around is written explicitly
(`% 256`, `% 65536`, the `as i32` cast) exactly where the Rust source
performs width-limited arithmetic whose operands can leave the width.
Branch-guarded subtractions that can never underflow in the source are
rendered as plain `Nat` subtraction, which agrees with the `u64`
operation there.
-/

namespace GeodePiano

namespace pins

/-- Number of pins driven by each MCP23017 pin extender (`PINS_PER_EXTENDER`). -/
def PINS_PER_EXTENDER : Nat := 16

/-- Number of MCP23017 chips used (`N_PIN_EXTENDERS`). -/
def N_PIN_EXTENDERS : Nat := 2

/-- Number of pins driven directly by the board (`N_REGULAR_PINS`). -/
def N_REGULAR_PINS : Nat := 12

/-- Number of total extended pins (`N_EXTENDED_PINS`). -/
def N_EXTENDED_PINS : Nat := PINS_PER_EXTENDER * N_PIN_EXTENDERS

/-- Number of unsafe pins per extender, GPA7 and GPB7 (`UNSAFE_PER_EXTENDER`). -/
def UNSAFE_PER_EXTENDER : Nat := 2

/-- Single extender address offset of PORTA (`PORT_A`). -/
def PORT_A : Nat := 0

/-- Single extender address offset of PORTB (`PORT_B`). -/
def PORT_B : Nat := 8

/-- Usable pins per extender, as set by `TransparentPins::new` depending on
`disable_unsafe_pins`. -/
def usable_pins_per_extender (disable_unsafe_pins : Bool) : Nat :=
  if disable_unsafe_pins then PINS_PER_EXTENDER - UNSAFE_PER_EXTENDER else PINS_PER_EXTENDER

/-- Usable pin count on all extenders (`usable_extended_pins` field). -/
def usable_extended_pins (disable_unsafe_pins : Bool) : Nat :=
  N_PIN_EXTENDERS * usable_pins_per_extender disable_unsafe_pins

/-- Number of total usable pins (`n_total_pins` field): transparent pins all
have an address in `0..n_total_pins`. -/
def n_total_pins (disable_unsafe_pins : Bool) : Nat :=
  usable_extended_pins disable_unsafe_pins + N_REGULAR_PINS

/-- `TransparentPins::addr_to_pin`: transform a transparent address into a
pin number, taking into account pins that are not being used.  The Rust
argument and result are `u8`; the additions are performed in `u8`
(respectively computed in `usize` and cast back with `as u8`), hence the
explicit `% 256`. -/
def addr_to_pin (disable_unsafe_pins : Bool) (addr : Nat) : Nat :=
  if disable_unsafe_pins then
    if addr ≥ usable_pins_per_extender disable_unsafe_pins * N_PIN_EXTENDERS then
      (addr + UNSAFE_PER_EXTENDER * N_PIN_EXTENDERS) % 256
    else
      -- extender index
      let div := addr / usable_pins_per_extender disable_unsafe_pins
      -- offset within extender
      let m := addr % usable_pins_per_extender disable_unsafe_pins
      -- difference between `m` and the MCP23017 pin number within this extender
      let offset := if m ≥ PORT_A + 7 then 1 else 0
      (div * PINS_PER_EXTENDER + m + offset) % 256
  else
    addr

/-- A physical pin number is usable when it exists (below
`N_EXTENDED_PINS + N_REGULAR_PINS`) and, on an extender, is not one of the
structurally unsafe pins GPA7 (local pin 7) or GPB7 (local pin 15). -/
def usablePin (p : Nat) : Prop :=
  p < N_EXTENDED_PINS + N_REGULAR_PINS ∧
    ¬(p < N_EXTENDED_PINS ∧ (p % PINS_PER_EXTENDER = 7 ∨ p % PINS_PER_EXTENDER = 15))

instance (p : Nat) : Decidable (usablePin p) := by
  unfold usablePin; infer_instance

/-- Inverse address translation.  Not present in the source; it is the
inverse demanded by the spec sentence "`inverse(translate(a)) == a`",
written in closed form for the `disable_unsafe_pins = true` scheme. -/
def pin_to_addr (p : Nat) : Nat :=
  if p ≥ N_EXTENDED_PINS then p - UNSAFE_PER_EXTENDER * N_PIN_EXTENDERS
  else (p / PINS_PER_EXTENDER) * (PINS_PER_EXTENDER - UNSAFE_PER_EXTENDER)
    + (p % PINS_PER_EXTENDER) - (if p % PINS_PER_EXTENDER ≥ PORT_B then 1 else 0)

/-- The error enum of `src/pins.rs` (`pins::Error`).  The `i2c::Error`
payload is irrelevant here and elided. -/
inductive Error where
  | InvalidPin (pin : Nat)
  | I2cError
  | ExtenderError
deriving DecidableEq

/-- `TransparentPin`: enum dispatch between on-board GPIO and extender pins. -/
inductive TransparentPin where
  | Onboard (idx : Nat)
  | Extended (ext_id : Nat) (loc_pin : Nat)
deriving DecidableEq

/-- `TransparentPins::get_pin`: resolve a pin number (NOT a transparent
address) to its backing hardware. -/
def get_pin (pin : Nat) : Except Error TransparentPin :=
  if pin ≥ N_EXTENDED_PINS + N_REGULAR_PINS then
    .error (.InvalidPin pin)
  else if pin < N_EXTENDED_PINS then
    .ok (.Extended (pin / PINS_PER_EXTENDER) (pin % PINS_PER_EXTENDER))
  else
    .ok (.Onboard (pin - N_EXTENDED_PINS))

/-- `embassy_rp::gpio::Pull`, restricted to the variants the source matches on. -/
inductive Pull where
  | None
  | Up
  | Down
deriving DecidableEq

/-- Outcome of a pin-configuration call.  `panicked` models the Rust
`unimplemented!` macro, which aborts instead of returning.  I2C
transactions themselves are modelled as succeeding (a healthy bus), since
the claims under study are not about bus failures. -/
inductive Outcome where
  | ok
  | err (e : Error)
  | panicked
deriving DecidableEq

/-- `TransparentPins::set_pull`: set the pull on an individual pin.
Follows the source's control flow: translate the address, resolve the pin
(propagating `InvalidPin`), then on an extender pin map `Pull::None`/`Up`
to a pull-up flag and hit `unimplemented!` on `Pull::Down`. -/
def set_pull (disable_unsafe_pins : Bool) (addr : Nat) (pull : Pull) : Outcome :=
  let pin_n := addr_to_pin disable_unsafe_pins addr
  match get_pin pin_n with
  | .error e => .err e
  | .ok (.Onboard _) => .ok
  | .ok (.Extended _ _) =>
    match pull with
    | .None => .ok
    | .Up => .ok
    -- Extended pins don't seem to support pull-down
    | .Down => .panicked

/-- `TransparentPins::set_input`: sets a pin as an input. -/
def set_input (disable_unsafe_pins : Bool) (addr : Nat) : Outcome :=
  match get_pin (addr_to_pin disable_unsafe_pins addr) with
  | .error e => .err e
  | .ok _ => .ok

/-- `TransparentPins::set_output`: sets a pin as an output. -/
def set_output (disable_unsafe_pins : Bool) (addr : Nat) : Outcome :=
  match get_pin (addr_to_pin disable_unsafe_pins addr) with
  | .error e => .err e
  | .ok _ => .ok

/-- `TransparentPins::raw_to_usable`: convert the raw pin input of an
extender (a `u16`, with the ports flipped by the read API) to just the
usable pins. -/
def raw_to_usable (disable_unsafe_pins : Bool) (val : Nat) : Nat :=
  if disable_unsafe_pins then
    -- ports are flipped from what it should be
    let port_a := (val &&& 0xff00) >>> 8
    let port_b := val &&& 0x00ff
    (port_a &&& 0x7f) ||| ((port_b &&& 0x7f) <<< 7)
  else
    val

/-- `TransparentPins::usable_to_raw`: convert the usable pin mask to the
raw pin output.  The shift is a `u16` shift, hence the `% 65536`. -/
def usable_to_raw (disable_unsafe_pins : Bool) (val : Nat) : Nat :=
  if disable_unsafe_pins then
    (val &&& 0x00ff) ||| (((val &&& 0xff00) <<< 1) % 65536)
  else
    val

/-- `TransparentPins::write_all`, projected onto the data it transmits:
the raw `u16` written to each extender (`write_gpioab` argument) and the
levels written to the on-board pins. -/
def write_all (disable_unsafe_pins : Bool) (val : Nat) : List Nat × List Bool :=
  ((List.range N_PIN_EXTENDERS).map fun i =>
      usable_to_raw disable_unsafe_pins
        ((val >>> (i * usable_pins_per_extender disable_unsafe_pins)) &&&
          ((1 <<< usable_pins_per_extender disable_unsafe_pins) - 1)),
   (List.range N_REGULAR_PINS).map fun pin =>
      (val >>> usable_extended_pins disable_unsafe_pins >>> pin) &&& 1 = 1)

/-- `TransparentPins::read_all`, as a function of the raw `u16` each
extender reports and the levels of the on-board pins. -/
def read_all (disable_unsafe_pins : Bool) (ext_raw : List Nat) (onboard : List Bool) : Nat :=
  let ext := (List.range N_PIN_EXTENDERS).foldl
    (fun ret i =>
      ret ||| (raw_to_usable disable_unsafe_pins (ext_raw.getD i 0) <<<
        (i * usable_pins_per_extender disable_unsafe_pins)))
    0
  (List.range N_REGULAR_PINS).foldl
    (fun ret pin =>
      ret ||| ((if onboard.getD pin false then 1 else 0) <<<
        (usable_extended_pins disable_unsafe_pins + pin)))
    ext

end pins

namespace matrix

/-- Rust's `us as i32` cast of a `u64`: keep the low 32 bits and
reinterpret them as a signed two's-complement value. -/
def as_i32 (us : Nat) : Int :=
  let r := us % 4294967296
  if r < 2147483648 then (r : Int) else (r : Int) - 4294967296

/-- Two's-complement wrap of an integer into the `i32` range, as performed
by Rust release-mode `i32` arithmetic. -/
def wrap_i32 (z : Int) : Int :=
  (z + 2147483648) % 4294967296 - 2147483648

/-- `matrix::velocity_light`.  Both branches of the source are `u64`
arithmetic whose guards rule out overflow and underflow, so plain `Nat`
arithmetic coincides; the final `as u8` cast is the `% 256`. -/
def velocity_light (us : Nat) : Nat :=
  if us ≤ 60000 then
    (min 127 ((135000 - us * 6 / 5) / 1000)) % 256
  else
    (127 - min us 240000 / 4000 - 60) % 256

/-- `matrix::velocity_heavy`. -/
def velocity_heavy (us : Nat) : Nat :=
  if us ≤ 17000 then
    ((113000 - us) / 1000) % 256
  else
    ((127000 - min us 190000 / 2 - 22000) / 1000) % 256

/-- `matrix::velocity_linear`: `(max(120900 - (us as i32), 5000) / 1000) as u8`.
The cast `us as i32` and the `i32` subtraction wrap; the quotient is of two
positive values, so truncating `i32` division agrees with `Nat` division
after `toNat`. -/
def velocity_linear (us : Nat) : Nat :=
  ((max (wrap_i32 (120900 - as_i32 us)) 5000).toNat / 1000) % 256

/-- Modelled from the spec: "Linear: `velocity = clamp((120900 − d) / 1000, ≥ 5)`",
in exact integer arithmetic. -/
def spec_velocity_linear (d : Nat) : Nat :=
  (max (120900 - (d : Int)) 5000).toNat / 1000

/-- Modelled from the spec: "Heavy: if `d ≤ 17000`:
`velocity = (113000 − d) / 1000`; else
`velocity = (127000 − min(d,190000)/2 − 22000) / 1000`". -/
def spec_velocity_heavy (d : Nat) : Nat :=
  if d ≤ 17000 then (113000 - d) / 1000
  else (127000 - min d 190000 / 2 - 22000) / 1000

/-- Modelled from the spec: "Light: if `d ≤ 60000`:
`velocity = min(127, (135000 − d·6/5) / 1000)`; else
`velocity = 127 − min(d,240000)/4000 − 60`". -/
def spec_velocity_light (d : Nat) : Nat :=
  if d ≤ 60000 then min 127 ((135000 - d * 6 / 5) / 1000)
  else 127 - min d 240000 / 4000 - 60

/-- One MIDI event pushed into the queue by the scan loop
(`chan.note_on` / `chan.note_off` calls). -/
inductive MidiEvent where
  | noteOn (note velocity : Nat)
  | noteOff (note velocity : Nat)
deriving DecidableEq

/-- `matrix::VelocityProfile`. -/
inductive VelocityProfile where
  | Linear
  | Heavy
  | Light

/-- The profile dispatch in `KeyMatrix::scan`
(`match config.velocity_prof`). -/
def profile_velocity : VelocityProfile → Nat → Nat
  | .Heavy => velocity_heavy
  | .Linear => velocity_linear
  | .Light => velocity_light

/-- The per-note slots of `KeyMatrix::scan`: `note_first[note]` (moment the
key is first touched) and `note_on[note]` (moment the note was last on),
timestamps in ticks. -/
structure NoteState where
  note_first : Option Nat
  note_on : Option Nat
deriving DecidableEq

/-- The `KeyAction::N1` match arm of `KeyMatrix::scan`, for one keymap
cell visit: updates the slots and returns the emitted events. -/
def stepN1 (note : Nat) (s : NoteState) (key_active : Bool) (now : Nat) :
    NoteState × List MidiEvent :=
  if key_active then
    if s.note_first.isNone then ({ s with note_first := some now }, [])
    else (s, [])
  else
    if s.note_first.isSome then
      match s.note_on with
      | some _ => ({ note_first := none, note_on := none }, [.noteOff note 0])
      | none => ({ s with note_first := none }, [])
    else (s, [])

/-- The `KeyAction::N2` match arm of `KeyMatrix::scan`. -/
def stepN2 (prof : VelocityProfile) (note : Nat) (s : NoteState) (key_active : Bool)
    (now : Nat) : NoteState × List MidiEvent :=
  if key_active then
    match s.note_first, s.note_on with
    | some t0, none =>
      -- microsecond duration of keypress
      let dur := now - t0
      let velocity := profile_velocity prof dur
      ({ s with note_on := some now }, [.noteOn note velocity])
    | _, _ =>
      -- keep refreshing the note
      if s.note_on.isSome then ({ s with note_on := some now }, [])
      else (s, [])
  else (s, [])

/-- The `KeyAction::N` (fixed-velocity) match arm of `KeyMatrix::scan`;
its state is the `note_on[note]` slot alone. -/
def stepN (note velocity : Nat) (note_on : Option Nat) (key_active : Bool) (now : Nat) :
    Option Nat × List MidiEvent :=
  if key_active then
    match note_on with
    | none => (some now, [.noteOn note velocity])
    | some _ => (note_on, [])
  else
    match note_on with
    | some _ => (none, [.noteOff note 0])
    | none => (note_on, [])

/-- Cell activity of the two switches of one two-switch key during one
scan pass: `a1` is the `N1` (first-contact) cell, `a2` the paired `N2`
(second-contact) cell, `t` the pass's timestamp.  The scan loop visits
each keymap cell once per pass, in an order fixed by the matrix layout; we
model the first-contact cell being visited before its pair (the event
sequences of the claims are identical under either order). -/
structure Cycle where
  a1 : Bool
  a2 : Bool
  t : Nat

/-- One scan pass acting on one two-switch key's note slots. -/
def runCycle (prof : VelocityProfile) (note : Nat) (s : NoteState) (c : Cycle) :
    NoteState × List MidiEvent :=
  let r1 := stepN1 note s c.a1 c.t
  let r2 := stepN2 prof note r1.1 c.a2 c.t
  (r2.1, r1.2 ++ r2.2)

/-- A sequence of scan passes acting on one two-switch key. -/
def runCycles (prof : VelocityProfile) (note : Nat) (s : NoteState) :
    List Cycle → NoteState × List MidiEvent
  | [] => (s, [])
  | c :: cs =>
    let r := runCycle prof note s c
    let rest := runCycles prof note r.1 cs
    (rest.1, r.2 ++ rest.2)

/-- A sequence of scan passes acting on one fixed-velocity key; each pass
gives the cell's activity and timestamp. -/
def runFixed (note velocity : Nat) (s : Option Nat) :
    List (Bool × Nat) → Option Nat × List MidiEvent
  | [] => (s, [])
  | c :: cs =>
    let r := stepN note velocity s c.1 c.2
    let rest := runFixed note velocity r.1 cs
    (rest.1, r.2 ++ rest.2)

end matrix

namespace midi

/-- `NoteMsg` of `src/midi/mod.rs` (identical in `src/geode_midi.rs`).
The source field `on` is spelled `is_on` here because `on` is notation in
the ambient Lean library. -/
structure NoteMsg where
  is_on : Bool
  note : Nat
  velocity : Nat

/-- `ControllerMsg`; the controller field carries the discriminant of the
`Controller` enum (`SustainPedal = 64`). -/
structure ControllerMsg where
  controller : Nat
  value : Nat

/-- `MsgType`. -/
inductive MsgType where
  | Note (m : NoteMsg)
  | Controller (m : ControllerMsg)

/-- `MidiMsg`: what producers enqueue and `midi_session` dequeues. -/
structure MidiMsg where
  msg : MsgType
  channel : Nat

/-- `MidiMsg::new`: every enqueued message (note-on, note-off and
controller alike go through it) has its channel masked to 4 bits. -/
def MidiMsg.new (msg : MsgType) (channel : Nat) : MidiMsg :=
  { msg, channel := channel &&& 0xf }

/-- The 4-byte USB-MIDI packet built by one iteration of `midi_session`
for a dequeued message (identical in `src/midi/mod.rs` and
`src/geode_midi.rs`). -/
def session_packet (m : MidiMsg) : List Nat :=
  match m.msg with
  | .Note note =>
    let status := (if note.is_on then 0b10010000 else 0b10000000) ||| m.channel
    [8, status, note.note, note.velocity]
  | .Controller ctrl =>
    let status := 0b10110000 ||| m.channel
    [8, status, ctrl.controller, ctrl.value]

end midi

end GeodePiano

namespace GeodePiano

open pins

theorem matrix.velocity_heavy_eq (us : Nat) :
    matrix.velocity_heavy us = matrix.spec_velocity_heavy us := by
  unfold matrix.velocity_heavy matrix.spec_velocity_heavy
  split <;> omega

theorem matrix.velocity_light_eq (us : Nat) :
    matrix.velocity_light us = matrix.spec_velocity_light us := by
  unfold matrix.velocity_light matrix.spec_velocity_light
  split <;> omega

theorem matrix.velocity_linear_eq (us : Nat) (h : us < 2147483648) :
    matrix.velocity_linear us = matrix.spec_velocity_linear us := by
  unfold matrix.velocity_linear matrix.spec_velocity_linear matrix.as_i32 matrix.wrap_i32
  rw [if_pos (show us % 4294967296 < 2147483648 by omega)]
  omega

theorem matrix.velocity_heavy_antitone (x y : Nat) (h : x ≤ y) :
    matrix.velocity_heavy y ≤ matrix.velocity_heavy x := by
  unfold matrix.velocity_heavy
  split <;> split <;> omega

theorem matrix.velocity_light_antitone (x y : Nat) (h : x ≤ y) :
    matrix.velocity_light y ≤ matrix.velocity_light x := by
  rw [matrix.velocity_light_eq, matrix.velocity_light_eq]
  unfold matrix.spec_velocity_light
  by_cases hy : y ≤ 60000
  · rw [if_pos hy, if_pos (le_trans h hy)]
    exact min_le_min (le_refl 127) (by omega)
  · rw [if_neg hy]
    by_cases hx : x ≤ 60000
    · rw [if_pos hx]
      refine le_trans (show 127 - min y 240000 / 4000 - 60 ≤ 52 by omega) ?_
      exact le_min (by norm_num) (by omega)
    · rw [if_neg hx]
      omega

theorem matrix.velocity_linear_antitone (x y : Nat) (hxy : x ≤ y) (hy : y < 2147483648) :
    matrix.velocity_linear y ≤ matrix.velocity_linear x := by
  rw [matrix.velocity_linear_eq x (by omega), matrix.velocity_linear_eq y hy]
  unfold matrix.spec_velocity_linear
  omega

theorem matrix.velocity_heavy_bounds (d : Nat) :
    1 ≤ matrix.velocity_heavy d ∧ matrix.velocity_heavy d ≤ 127 := by
  unfold matrix.velocity_heavy
  split <;> omega

theorem matrix.velocity_light_bounds (d : Nat) :
    1 ≤ matrix.velocity_light d ∧ matrix.velocity_light d ≤ 127 := by
  unfold matrix.velocity_light
  split <;> omega

theorem matrix.velocity_linear_bounds (d : Nat) (h : d < 2147483648) :
    1 ≤ matrix.velocity_linear d ∧ matrix.velocity_linear d ≤ 127 := by
  rw [matrix.velocity_linear_eq d h]
  unfold matrix.spec_velocity_linear
  omega

theorem matrix.runCycle_no_second_contact (prof : matrix.VelocityProfile) (note : Nat)
    (first : Option Nat) (a : Bool) (t : Nat) :
    ∃ first', matrix.runCycle prof note ⟨first, none⟩ ⟨a, false, t⟩ = (⟨first', none⟩, []) := by
  cases a <;> cases first <;> exact ⟨_, rfl⟩

theorem matrix.runCycles_no_second_contact (prof : matrix.VelocityProfile) (note : Nat) :
    ∀ (cs : List (Bool × Nat)) (first : Option Nat),
      (matrix.runCycles prof note ⟨first, none⟩ (cs.map fun p => ⟨p.1, false, p.2⟩)).2 = [] := by
  intro cs
  induction cs with
  | nil => intro first; rfl
  | cons c cs ih =>
    intro first
    obtain ⟨first', h⟩ := matrix.runCycle_no_second_contact prof note first c.1 c.2
    simp only [List.map_cons, matrix.runCycles, h]
    simpa using ih first'

theorem matrix.runFixed_hold_release (note velocity trel : Nat) :
    ∀ (ts : List Nat) (x : Nat),
      (matrix.runFixed note velocity (some x)
        ((ts.map fun t => (true, t)) ++ [(false, trel)])).2 = [.noteOff note 0] := by
  intro ts
  induction ts with
  | nil => intro x; rfl
  | cons t ts ih =>
    intro x
    simpa only [List.map_cons, List.cons_append, matrix.runFixed, matrix.stepN,
      List.nil_append] using ih x

theorem midi.status_nibbles :
    ∀ r < 16,
      (0b10010000 ||| r) >>> 4 = 0b1001 ∧ (0b10010000 ||| r) % 16 = r
      ∧ (0b10000000 ||| r) >>> 4 = 0b1000 ∧ (0b10000000 ||| r) % 16 = r
      ∧ (0b10110000 ||| r) >>> 4 = 0b1011 ∧ (0b10110000 ||| r) % 16 = r := by
  decide

/-- **C1.**  With the disable-unsafe-pins policy enabled, `addr_to_pin` is a
bijection from the address range `[0, n_total_pins)` onto the usable
physical pins: the spec inverse undoes it on every address in range, it is
injective there, no address lands on an unsafe pin (local pin 7 or 15 of
an expander), and every usable pin is hit. -/
theorem c1_addr_to_pin_bijection :
    (∀ a < n_total_pins true,
      usablePin (addr_to_pin true a) ∧ pin_to_addr (addr_to_pin true a) = a)
    ∧ (∀ a < n_total_pins true, ∀ b < n_total_pins true,
        addr_to_pin true a = addr_to_pin true b → a = b)
    ∧ (∀ p < N_EXTENDED_PINS + N_REGULAR_PINS,
        usablePin p → ∃ a < n_total_pins true, addr_to_pin true a = p) := by
  decide

/-- Witness for C1: address 13 is in range, maps to the usable pin 14
(skipping unsafe GPA7 = pin 7) and is recovered by the inverse. -/
theorem c1_addr_to_pin_bijection_witness :
    usablePin (addr_to_pin true 13) ∧ pin_to_addr (addr_to_pin true 13) = 13 :=
  c1_addr_to_pin_bijection.1 13 (by decide)

/-- **C2.**  The claimed round-trip `raw_to_usable ∘ usable_to_raw = id` on
usable masks fails: for the mask `1` (extender pin GPA0, policy enabled)
the composition returns `128`, and consequently a `write_all` of mask `1`
read back through `read_all` (the expander echoing the written port bytes)
also returns `128`, not `1`.  The two conversion functions disagree about
which half of the usable mask is port A: `raw_to_usable` puts port A in
the low 7 bits, `usable_to_raw` keeps the low 8 bits in place. -/
theorem c2_bulk_round_trip_fails :
    raw_to_usable true (usable_to_raw true 1) = 128
    ∧ read_all true (write_all true 1).1 (write_all true 1).2 = 128
    ∧ (128 : Nat) ≠ 1 := by
  decide

/-- Counterexample for C3: the claim quantifies over every duration, but
`velocity_linear` casts the `u64` duration with `us as i32`, which wraps.
At `d = 2^32` the cast yields `0`, so the code returns `120`, while the
spec formula `max(120900 − d, 5000) / 1000` yields `5`. -/
theorem c3_velocity_linear_counterexample :
    matrix.velocity_linear 4294967296 = 120
    ∧ matrix.spec_velocity_linear 4294967296 = 5
    ∧ (120 : Nat) ≠ 5 := by
  decide

/-- **C3 (amended).**  `velocity_heavy` and `velocity_light` compute the
spec formulas bit for bit for every duration; `velocity_linear` computes
its spec formula for every duration below `2^31` microseconds (beyond
that, the `as i32` cast in the source wraps and the results diverge). -/
theorem c3_velocity_formulas_amended (us : Nat) :
    matrix.velocity_heavy us = matrix.spec_velocity_heavy us
    ∧ matrix.velocity_light us = matrix.spec_velocity_light us
    ∧ (us < 2147483648 → matrix.velocity_linear us = matrix.spec_velocity_linear us) :=
  ⟨matrix.velocity_heavy_eq us, matrix.velocity_light_eq us,
    fun h => matrix.velocity_linear_eq us h⟩

/-- Witness for C3 (amended) at duration 100 µs. -/
theorem c3_velocity_formulas_amended_witness :
    matrix.velocity_heavy 100 = matrix.spec_velocity_heavy 100
    ∧ matrix.velocity_linear 100 = matrix.spec_velocity_linear 100 :=
  ⟨(c3_velocity_formulas_amended 100).1,
    (c3_velocity_formulas_amended 100).2.2 (by decide)⟩

/-- Counterexample for C4: because of the same `as i32` wrap,
`velocity_linear` is neither monotone nor bounded below by 1 over all
durations: at `d = 2^32 − 135100` it returns `0` (the `as u8` cast of
`256`), and between `d₁ = 115901` and `d₂ = 2^32` it increases from `5`
to `120`. -/
theorem c4_velocity_linear_counterexample :
    matrix.velocity_linear 4294832196 = 0
    ∧ ¬ 1 ≤ matrix.velocity_linear 4294832196
    ∧ (115901 : Nat) < 4294967296
    ∧ matrix.velocity_linear 115901 = 5
    ∧ ¬ matrix.velocity_linear 4294967296 ≤ matrix.velocity_linear 115901 := by
  decide

/-- **C4 (amended).**  `velocity_heavy` and `velocity_light` are monotone
non-increasing and land in `[1, 127]` for every duration; `velocity_linear`
satisfies both properties on durations below `2^31` microseconds (the
range where the `as i32` cast is faithful). -/
theorem c4_velocity_monotone_bounded_amended :
    (∀ d1 d2 : Nat, d1 < d2 → matrix.velocity_heavy d2 ≤ matrix.velocity_heavy d1)
    ∧ (∀ d : Nat, 1 ≤ matrix.velocity_heavy d ∧ matrix.velocity_heavy d ≤ 127)
    ∧ (∀ d1 d2 : Nat, d1 < d2 → matrix.velocity_light d2 ≤ matrix.velocity_light d1)
    ∧ (∀ d : Nat, 1 ≤ matrix.velocity_light d ∧ matrix.velocity_light d ≤ 127)
    ∧ (∀ d1 d2 : Nat, d1 < d2 → d2 < 2147483648 →
        matrix.velocity_linear d2 ≤ matrix.velocity_linear d1)
    ∧ (∀ d : Nat, d < 2147483648 →
        1 ≤ matrix.velocity_linear d ∧ matrix.velocity_linear d ≤ 127) :=
  ⟨fun d1 d2 h => matrix.velocity_heavy_antitone d1 d2 (Nat.le_of_lt h),
    matrix.velocity_heavy_bounds,
    fun d1 d2 h => matrix.velocity_light_antitone d1 d2 (Nat.le_of_lt h),
    matrix.velocity_light_bounds,
    fun d1 d2 h h2 => matrix.velocity_linear_antitone d1 d2 (Nat.le_of_lt h) h2,
    matrix.velocity_linear_bounds⟩

/-- Witness for C4 (amended): concrete monotonicity and bound instances. -/
theorem c4_velocity_monotone_bounded_amended_witness :
    matrix.velocity_heavy 20000 ≤ matrix.velocity_heavy 10000
    ∧ 1 ≤ matrix.velocity_light 0
    ∧ matrix.velocity_linear 20000 ≤ matrix.velocity_linear 10000
    ∧ matrix.velocity_linear 10000 ≤ 127 :=
  ⟨c4_velocity_monotone_bounded_amended.1 10000 20000 (by decide),
    (c4_velocity_monotone_bounded_amended.2.2.2.1 0).1,
    c4_velocity_monotone_bounded_amended.2.2.2.2.1 10000 20000 (by decide) (by decide),
    (c4_velocity_monotone_bounded_amended.2.2.2.2.2 10000 (by decide)).2⟩

/-- **C5.**  Two-switch sequencing, per-note state machine of the scan
loop.  First conjunct: any sequence of passes in which the second-contact
(`N2`) cell is never active — whatever the first-contact (`N1`) cell does
— emits no MIDI event.  Second conjunct: `N1` active, then `N2` active,
then both released emits exactly one Note On, with the configured profile
applied to the time elapsed since the first-touch timestamp, followed by
exactly one Note Off. -/
theorem c5_two_switch_sequencing :
    ∀ (prof : matrix.VelocityProfile) (note : Nat) (cs : List (Bool × Nat)) (t1 t2 t3 : Nat),
      (matrix.runCycles prof note ⟨none, none⟩ (cs.map fun p => ⟨p.1, false, p.2⟩)).2 = []
      ∧ (matrix.runCycles prof note ⟨none, none⟩
          [⟨true, false, t1⟩, ⟨true, true, t2⟩, ⟨false, false, t3⟩]).2 =
        [.noteOn note (matrix.profile_velocity prof (t2 - t1)), .noteOff note 0] := by
  intro prof note cs t1 t2 t3
  exact ⟨matrix.runCycles_no_second_contact prof note cs none, rfl⟩

/-- **C6.**  A fixed-velocity (`KeyAction::N`) key held active for any
positive number of consecutive passes and then released emits exactly one
Note On over the whole active period and exactly one Note Off on
release. -/
theorem c6_fixed_velocity_one_on_one_off :
    ∀ (note velocity t0 trel : Nat) (ts : List Nat),
      (matrix.runFixed note velocity none
        (((t0 :: ts).map fun t => (true, t)) ++ [(false, trel)])).2 =
      [.noteOn note velocity, .noteOff note 0] := by
  intro note velocity t0 trel ts
  have h := matrix.runFixed_hold_release note velocity trel ts t0
  calc (matrix.runFixed note velocity none
          (((t0 :: ts).map fun t => (true, t)) ++ [(false, trel)])).2
      = [matrix.MidiEvent.noteOn note velocity] ++
          (matrix.runFixed note velocity (some t0)
            ((ts.map fun t => (true, t)) ++ [(false, trel)])).2 := rfl
    _ = [matrix.MidiEvent.noteOn note velocity, matrix.MidiEvent.noteOff note 0] := by
          rw [h]; rfl

/-- **C9.**  For every message the transport dequeues (all of them built by
`MidiMsg::new`, which masks the channel to 4 bits), the serialized 4-byte
packet is `[8, status, data1, data2]` with the status high nibble `1001`
for Note On, `1000` for Note Off, `1011` for Control Change, the status
low nibble equal to the input channel `& 0xf`, data1 the note or
controller number and data2 the velocity or controller value. -/
theorem c9_status_byte_encoding :
    ∀ (c n v ci cv : Nat) (b : Bool),
      (midi.session_packet (midi.MidiMsg.new (.Note ⟨b, n, v⟩) c) =
        [8, (if b then 0b10010000 else 0b10000000) ||| (c &&& 0xf), n, v])
      ∧ ((midi.session_packet (midi.MidiMsg.new (.Note ⟨b, n, v⟩) c)).getD 1 0) >>> 4 =
          (if b then 0b1001 else 0b1000)
      ∧ ((midi.session_packet (midi.MidiMsg.new (.Note ⟨b, n, v⟩) c)).getD 1 0) % 16 =
          c &&& 0xf
      ∧ midi.session_packet (midi.MidiMsg.new (.Controller ⟨ci, cv⟩) c) =
          [8, 0b10110000 ||| (c &&& 0xf), ci, cv]
      ∧ ((midi.session_packet (midi.MidiMsg.new (.Controller ⟨ci, cv⟩) c)).getD 1 0) >>> 4 =
          0b1011
      ∧ ((midi.session_packet (midi.MidiMsg.new (.Controller ⟨ci, cv⟩) c)).getD 1 0) % 16 =
          c &&& 0xf := by
  intro c n v ci cv b
  have hr : c &&& 0xf < 16 := Nat.lt_succ_of_le Nat.and_le_right
  obtain ⟨h1, h2, h3, h4, h5, h6⟩ := midi.status_nibbles (c &&& 0xf) hr
  cases b <;>
    simp [midi.session_packet, midi.MidiMsg.new, h1, h2, h3, h4, h5, h6]

/-- **C10.**  The first byte of every serialized USB-MIDI packet — the
cable-number-and-code-index byte — is the constant `8`, for Note On, Note
Off and Controller messages alike. -/
theorem c10_cable_code_index_constant :
    ∀ m : midi.MidiMsg, (midi.session_packet m).getD 0 0 = 8 ∧
      (midi.session_packet m).length = 4 := by
  intro m
  obtain ⟨msg, ch⟩ := m
  cases msg <;> exact ⟨rfl, rfl⟩

/-- **C7.**  `InvalidPin` checking is broken by `u8` overflow: under the
disable-unsafe-pins policy, address `252` is far beyond
`n_total_pins = 40`, yet `addr_to_pin` computes `252 + 4` in `u8`, wraps
to pin `0`, and all three configuration operations accept it instead of
returning `InvalidPin`. -/
theorem c7_invalid_pin_check_overflow :
    n_total_pins true ≤ 252
    ∧ set_input true 252 = Outcome.ok
    ∧ set_output true 252 = Outcome.ok
    ∧ set_pull true 252 Pull.Up = Outcome.ok := by
  decide

/-- Counterexample for C8: with the policy enabled, address 0 is a valid
expander-backed pin, and `set_pull` with `Pull::Down` panics
(`unimplemented!`) — it does not return any value, in particular not an
`UnsupportedPull` error (no such variant exists in `pins::Error`). -/
theorem c8_set_pull_down_panics :
    set_pull true 0 Pull.Down = Outcome.panicked
    ∧ ∀ e : Error, Outcome.panicked ≠ Outcome.err e := by
  exact ⟨rfl, fun e h => Outcome.noConfusion h⟩

/-- **C8 (amended).**  For every valid expander-backed pin address (under
either policy), `set_pull` with `Pull::Down` panics via `unimplemented!`
rather than returning, while `Pull::None` and `Pull::Up` succeed. -/
theorem c8_set_pull_down_amended :
    ∀ (d : Bool), ∀ addr < usable_extended_pins d,
      set_pull d addr Pull.Down = Outcome.panicked
      ∧ set_pull d addr Pull.None = Outcome.ok
      ∧ set_pull d addr Pull.Up = Outcome.ok := by
  decide

/-- Witness for C8 (amended): extender-backed address 5. -/
theorem c8_set_pull_down_amended_witness :
    set_pull true 5 Pull.Down = Outcome.panicked
    ∧ set_pull true 5 Pull.None = Outcome.ok
    ∧ set_pull true 5 Pull.Up = Outcome.ok :=
  c8_set_pull_down_amended true 5 (by decide)

end GeodePiano
